import Mathlib

/-!
A verification development for the environment-abstraction component of the
io-providers crate: the `Env` capability (src/env/mod.rs) together with its
in-memory simulated backend `SimulatedEnv` and the native backend view needed
for the error-payload property of text-form variable lookup.

Paths are modelled as opaque text values (`PathBuf`), platform-native strings
(`ffi::OsString`) as values that are either guaranteed-valid text or raw
non-text byte sequences, and each `&mut self` operation as an explicit
state-to-state function while each `&self` operation is a pure function of the
state.
-/

/-- Paths (`std::path::PathBuf`) are opaque text values in this model; the spec
places path-encoding edge cases out of scope. -/
abbrev PathBuf := String

/-- A platform-native string (`std::ffi::OsString`): either guaranteed-valid
text or an arbitrary raw non-text byte sequence. -/
inductive OsString where
  | text (s : String)
  | raw (bytes : List Nat)
deriving DecidableEq, Repr

/-- `OsString::into_string`: recover valid text from a platform-native string,
failing exactly on non-text raw values. -/
def OsString.intoString : OsString → Option String
  | .text s => some s
  | .raw _ => none

/-- `std::env::VarError`, the error type of text-form variable lookup
(`Env::var`, src/env/mod.rs line 128): either the variable is absent, or its
value is not valid text, in which case the error carries that raw value. -/
inductive VarError where
  | NotPresent
  | NotUnicode (value : OsString)
deriving DecidableEq, Repr

/-- Error kinds of the path-valued operations (`io::Result` failures), per the
error taxonomy: the requested path-valued attribute cannot be determined. -/
inductive EnvIoError where
  | PathResolutionError
deriving DecidableEq, Repr

/-- Modelled from the spec: `SimulatedEnv` (src/env/simulated.rs is declared in
src/env/mod.rs but its file is not among the sources). The in-memory snapshot
of sections 3 and 4.3 of the design: an optional current directory, optional
executable path, optional home directory, optional temp directory, a text
key/value variable mapping with unique keys, and an ordered argument list.
Construction yields the empty default snapshot. -/
structure SimulatedEnv where
  current_directory : Option PathBuf := none
  executable_path : Option PathBuf := none
  home_directory : Option PathBuf := none
  temp_directory : Option PathBuf := none
  varsMap : List (String × String) := []
  arguments : List String := []
deriving DecidableEq, Repr

namespace SimulatedEnv

/-- `SimulatedEnv::new()`: the deterministic empty default snapshot. -/
def new : SimulatedEnv := {}

/-- Modelled from the spec: `Env::set_var` on the simulated backend inserts or
overwrites the mapping for `k` (keys stay unique). -/
def set_var (env : SimulatedEnv) (k v : String) : SimulatedEnv :=
  { env with varsMap := (k, v) :: env.varsMap.filter (fun p => !(p.1 == k)) }

/-- Modelled from the spec: `Env::remove_var` on the simulated backend deletes
the variable if present and is a no-op if absent; the key is eliminated
entirely. -/
def remove_var (env : SimulatedEnv) (k : String) : SimulatedEnv :=
  { env with varsMap := env.varsMap.filter (fun p => !(p.1 == k)) }

/-- Modelled from the spec: `Env::set_current_dir` on the simulated backend
accepts any path unconditionally (no existence check) and never fails; it
returns the success marker together with the updated snapshot. -/
def set_current_dir (env : SimulatedEnv) (p : PathBuf) :
    Except EnvIoError Unit × SimulatedEnv :=
  (.ok (), { env with current_directory := some p })

/-- Modelled from the spec: `Env::current_dir` on the simulated backend returns
the stored current directory, failing with `PathResolutionError` when it is
unset. -/
def current_dir (env : SimulatedEnv) : Except EnvIoError PathBuf :=
  match env.current_directory with
  | some p => .ok p
  | none => .error .PathResolutionError

/-- Modelled from the spec: `Env::current_exe` on the simulated backend returns
the stored executable path, failing with `PathResolutionError` when unset. -/
def current_exe (env : SimulatedEnv) : Except EnvIoError PathBuf :=
  match env.executable_path with
  | some p => .ok p
  | none => .error .PathResolutionError

/-- Modelled from the spec: `Env::home_dir` on the simulated backend; absent
means unknown, never an error. -/
def home_dir (env : SimulatedEnv) : Option PathBuf := env.home_directory

/-- Modelled from the spec: `Env::temp_dir` on the simulated backend never
fails; it falls back to the conventional placeholder `/tmp` when the temp
directory was never set. -/
def temp_dir (env : SimulatedEnv) : PathBuf := env.temp_directory.getD "/tmp"

/-- Modelled from the spec: `Env::var_os` on the simulated backend; absent
means unset, and stored values (always valid text) are returned in raw form. -/
def var_os (env : SimulatedEnv) (k : String) : Option OsString :=
  (env.varsMap.lookup k).map OsString.text

/-- Modelled from the spec: `Env::var` on the simulated backend; the text-form
lookup over the raw-form one, failing with `VariableNotPresent` when unset and
with `VariableNotUnicode` (carrying the value) when the value is not valid
text. -/
def var (env : SimulatedEnv) (k : String) : Except VarError String :=
  match env.var_os k with
  | none => .error .NotPresent
  | some v =>
    match v.intoString with
    | some s => .ok s
    | none => .error (.NotUnicode v)

/-- Modelled from the spec: `Env::vars` on the simulated backend enumerates a
point-in-time copy of the variable mapping. -/
def vars (env : SimulatedEnv) : List (String × String) := env.varsMap

/-- Modelled from the spec: `Env::vars_os` on the simulated backend, the raw
form of `vars`. -/
def vars_os (env : SimulatedEnv) : List (OsString × OsString) :=
  env.varsMap.map (fun p => (OsString.text p.1, OsString.text p.2))

/-- Modelled from the spec: `Env::args` on the simulated backend enumerates the
stored argument list. -/
def args (env : SimulatedEnv) : List String := env.arguments

/-- Modelled from the spec: `Env::args_os` on the simulated backend, the raw
form of `args`. -/
def args_os (env : SimulatedEnv) : List OsString :=
  env.arguments.map OsString.text

end SimulatedEnv

/-- A mutation operation of the `Env` capability surface (`&mut self` methods
of the trait, src/env/mod.rs lines 104, 111, 117). -/
inductive EnvOp where
  | setVar (k v : String)
  | removeVar (k : String)
  | setCurrentDir (p : PathBuf)
deriving DecidableEq, Repr

/-- Apply one mutation operation to a simulated environment. -/
def applyOp (env : SimulatedEnv) : EnvOp → SimulatedEnv
  | .setVar k v => env.set_var k v
  | .removeVar k => env.remove_var k
  | .setCurrentDir p => (env.set_current_dir p).2

/-- Apply a sequence of mutation operations, first to last. -/
def applyOps (env : SimulatedEnv) (ops : List EnvOp) : SimulatedEnv :=
  ops.foldl applyOp env

/-- Two independently constructed `SimulatedEnv` instances, living side by
side. -/
structure EnvPair where
  first : SimulatedEnv
  second : SimulatedEnv
deriving DecidableEq, Repr

/-- Mutate only the first instance of the pair with a sequence of
operations. -/
def EnvPair.mutateFirst (w : EnvPair) (ops : List EnvOp) : EnvPair :=
  { w with first := applyOps w.first ops }

/-- An inspection operation of the `Env` capability surface: every `&self`
method of the trait (src/env/mod.rs lines 68, 75, 81, 87, 98, 123, 128, 133,
139, 145). -/
inductive InspectOp where
  | args
  | argsOs
  | currentDir
  | currentExe
  | homeDir
  | tempDir
  | var (k : String)
  | varOs (k : String)
  | vars
  | varsOs
deriving DecidableEq, Repr

/-- The result of an inspection operation. -/
inductive InspectResult where
  | strings (l : List String)
  | osStrings (l : List OsString)
  | pairs (l : List (String × String))
  | osPairs (l : List (OsString × OsString))
  | pathResult (r : Except EnvIoError PathBuf)
  | optPath (p : Option PathBuf)
  | path (p : PathBuf)
  | varResult (r : Except VarError String)
  | optOs (v : Option OsString)
deriving Repr

/-- The state-passing form of the inspection operations: each trait method
takes `&self` (shared access, no interior mutability), so its explicit
state-passing translation produces its result together with the state it was
given. -/
def SimulatedEnv.observe (env : SimulatedEnv) :
    InspectOp → InspectResult × SimulatedEnv
  | .args => (.strings env.args, env)
  | .argsOs => (.osStrings env.args_os, env)
  | .currentDir => (.pathResult env.current_dir, env)
  | .currentExe => (.pathResult env.current_exe, env)
  | .homeDir => (.optPath env.home_dir, env)
  | .tempDir => (.path env.temp_dir, env)
  | .var k => (.varResult (env.var k), env)
  | .varOs k => (.optOs (env.var_os k), env)
  | .vars => (.pairs env.vars, env)
  | .varsOs => (.osPairs env.vars_os, env)

/-- Modelled from the spec: the real process environment as seen by the native
backend (src/env/native.rs is declared in src/env/mod.rs but its file is not
among the sources) — a mapping from variable names to raw platform-native
values, over which the raw-form lookup never fails. -/
structure NativeEnvState where
  varsMap : List (String × OsString)
deriving DecidableEq, Repr

/-- Modelled from the spec: `Env::var_os` on the native backend; raw-form
lookup, absent means unset. -/
def NativeEnvState.var_os (s : NativeEnvState) (k : String) : Option OsString :=
  s.varsMap.lookup k

/-- Modelled from the spec: `Env::var` on the native backend; text-form lookup
fails with `VariableNotPresent` when unset and with `VariableNotUnicode`
carrying the offending raw value when the stored value is not valid text. -/
def NativeEnvState.var (s : NativeEnvState) (k : String) :
    Except VarError String :=
  match s.var_os k with
  | none => .error .NotPresent
  | some v =>
    match v.intoString with
    | some str => .ok str
    | none => .error (.NotUnicode v)

namespace SimulatedEnv

theorem lookup_filter_self (k : String) (l : List (String × String)) :
    (l.filter (fun p => !(p.1 == k))).lookup k = none := by
  induction l with
  | nil => rfl
  | cons p t ih =>
    by_cases h : p.1 = k
    · simp [List.filter_cons, h, ih]
    · simp only [List.filter_cons]
      have hb : (p.1 == k) = false := beq_false_of_ne h
      simp [hb, List.lookup, ih, beq_false_of_ne (Ne.symm h)]

/-- C1: for every `SimulatedEnv` state, key `k` and text value `v`, calling
`set_var(k, v)` and then `var(k)` returns exactly `v`. -/
theorem set_var_then_var (env : SimulatedEnv) (k v : String) :
    (env.set_var k v).var k = .ok v := by
  simp [set_var, var, var_os, List.lookup, OsString.intoString]

/-- C2: for every `SimulatedEnv` state and key `k`, after `remove_var(k)` the
text-form lookup `var(k)` fails with `VariableNotPresent`, the raw-form lookup
`var_os(k)` returns absent, and the variable mapping contains no entry with
key `k` at all. -/
theorem remove_var_eliminates (env : SimulatedEnv) (k : String) :
    (env.remove_var k).var k = .error .NotPresent ∧
    (env.remove_var k).var_os k = none ∧
    (env.remove_var k).varsMap.all (fun p => !(p.1 == k)) = true := by
  refine ⟨?_, ?_, ?_⟩
  · simp [var, var_os, remove_var, lookup_filter_self]
  · simp [var_os, remove_var, lookup_filter_self]
  · simp [remove_var, List.all_filter]

/-- C3: for every `SimulatedEnv` state and every path `p` (no existence check),
`set_current_dir(p)` returns success and a subsequent `current_dir()` returns
exactly `p`. -/
theorem set_current_dir_roundtrip (env : SimulatedEnv) (p : PathBuf) :
    (env.set_current_dir p).1 = .ok () ∧
    (env.set_current_dir p).2.current_dir = .ok p :=
  ⟨rfl, rfl⟩

/-- C4: on the simulated backend `var(k)` never fails with
`VariableNotUnicode`: stored values are always valid text, so that error
branch of the text-form lookup is unreachable. -/
theorem var_never_not_unicode (env : SimulatedEnv) (k : String) (e : OsString) :
    env.var k ≠ .error (.NotUnicode e) := by
  unfold var var_os
  cases h : env.varsMap.lookup k with
  | none => simp
  | some v => simp [OsString.intoString]

/-- C4 witness: the property at a concrete state, key and raw value. -/
theorem var_never_not_unicode_witness :
    (SimulatedEnv.new.set_var "K" "v").var "K" ≠
      .error (.NotUnicode (.raw [255])) :=
  var_never_not_unicode (SimulatedEnv.new.set_var "K" "v") "K" (.raw [255])

/-- C5: on a freshly constructed `SimulatedEnv` (the empty default snapshot),
`current_dir()` fails with `PathResolutionError` because the simulated current
directory is unset. -/
theorem new_current_dir_fails :
    SimulatedEnv.new.current_dir = .error .PathResolutionError := rfl

/-- C6: `temp_dir()` is total (it never fails), and on a `SimulatedEnv` whose
temp directory was never set it returns the conventional placeholder `/tmp`. -/
theorem temp_dir_default (env : SimulatedEnv)
    (h : env.temp_directory = none) : env.temp_dir = "/tmp" := by
  simp [temp_dir, h]

/-- C6 witness: the default temp directory of a fresh snapshot. -/
theorem temp_dir_default_witness : SimulatedEnv.new.temp_dir = "/tmp" :=
  temp_dir_default SimulatedEnv.new rfl

/-- C7: `remove_var` is idempotent: removing the same key twice yields the
same state as removing it once. -/
theorem remove_var_idem (env : SimulatedEnv) (k : String) :
    (env.remove_var k).remove_var k = env.remove_var k := by
  simp [remove_var, List.filter_filter]

/-- C9: every inspection operation of the `Env` capability takes only shared
access: in state-passing form, performing any inspection on a state yields its
result while the state after the call equals the state before. -/
theorem observe_preserves_state (env : SimulatedEnv) (op : InspectOp) :
    (env.observe op).2 = env := by
  cases op <;> rfl

end SimulatedEnv

/-- C8: two independently constructed `SimulatedEnv` instances share no state:
for every sequence of mutation operations applied to the first instance, the
second remains exactly its default snapshot. -/
theorem independent_instances (ops : List EnvOp) :
    (EnvPair.mutateFirst ⟨SimulatedEnv.new, SimulatedEnv.new⟩ ops).second =
      SimulatedEnv.new := rfl

/-- C10: when the native text-form lookup `var(k)` fails with
`VariableNotUnicode`, the error carries the offending raw platform-native
value itself: it equals exactly what the raw-form lookup `var_os(k)` stores,
so the caller recovers the stored value from the error without a second
lookup. -/
theorem not_unicode_carries_value (s : NativeEnvState) (k : String)
    (e : OsString) (h : s.var k = .error (.NotUnicode e)) :
    s.var_os k = some e := by
  unfold NativeEnvState.var at h
  cases hv : s.var_os k with
  | none => simp [hv] at h
  | some v =>
    rw [hv] at h
    cases hi : v.intoString with
    | none =>
      simp [hi] at h
      simp [h]
    | some str => simp [hi] at h

/-- C10 witness: a concrete native environment holding a non-text value; the
lookup error carries that exact value. -/
theorem not_unicode_carries_value_witness :
    NativeEnvState.var_os ⟨[("K", OsString.raw [255])]⟩ "K" =
      some (OsString.raw [255]) :=
  not_unicode_carries_value ⟨[("K", OsString.raw [255])]⟩ "K"
    (OsString.raw [255]) rfl
